import Mathlib

/-!
Shallow embedding of the EVM pallet (`src/modules/evm/src/lib.rs`):
the account-state bridge and transaction dispatch protocol.

Addresses (`H160`), storage keys (`H256`) and native account identities
(`AccountId32`) are byte lists (each byte a `Nat`).  The pallet storage
(`AccountCodes`, `AccountStorages`), the native ledger facts it consumes
(per-identity nonce and free balance) and the event log are gathered in
`ModuleState`, which the dispatchables thread explicitly.  External
capabilities (the `Runner` engine, the `Currency` ledger, the configured
hash function) are parameters.
-/

namespace EvmPallet

/-- 20-byte EVM address, as its list of bytes (`sp_core::H160`). -/
abbrev H160 := List Nat

/-- 32-byte hash / storage key, as its list of bytes (`sp_core::H256`). -/
abbrev H256 := List Nat

/-- 32-byte native account identity (`sp_runtime::AccountId32`), as bytes. -/
abbrev AccountId32 := List Nat

/-- `frame_system::RawOrigin` for an `AccountId32` runtime: root, a signed
single-signer origin, or the unsigned origin.  The dispatchables' outer
origin is modelled as this type directly (the standard instantiation). -/
inductive RawOrigin where
  | root
  | signed (who : AccountId32)
  | none'
deriving DecidableEq

/-- `sp_evm::Account`: the derived EVM-format account view.  Both fields are
`U256` values in the source; they are represented by the `Nat` they denote
(the construction in `account_basic` keeps them below `2 ^ 256`). -/
structure Account where
  nonce : Nat
  balance : Nat
deriving DecidableEq

/-- `evm::ExitSucceed` (external `evm` crate). -/
inductive ExitSucceed where
  | stopped
  | returned
  | suicided
deriving DecidableEq

/-- `evm::ExitRevert` (external `evm` crate). -/
inductive ExitRevert where
  | reverted
deriving DecidableEq

/-- `evm::ExitError` (external `evm` crate); only the shape matters here,
so the many reason codes are collapsed into a representative plus a code. -/
inductive ExitError where
  | outOfGas
  | other (code : Nat)
deriving DecidableEq

/-- `evm::ExitFatal` (external `evm` crate). -/
inductive ExitFatal where
  | notSupported
  | unhandledInterrupt
  | callErrorAsFatal (e : ExitError)
  | other (code : Nat)
deriving DecidableEq

/-- `evm::ExitReason`: the engine's terminal classification,
one of Succeed / Revert / Error / Fatal, each carrying a reason. -/
inductive ExitReason where
  | succeed (r : ExitSucceed)
  | revert (r : ExitRevert)
  | error (r : ExitError)
  | fatal (r : ExitFatal)
deriving DecidableEq

/-- Whether an `ExitReason` is a `Succeed` variant. -/
def ExitReason.isSucceed : ExitReason → Bool
  | .succeed _ => true
  | _ => false

/-- `sp_evm::Log`: an Ethereum log entry. -/
structure LogEntry where
  address : H160
  topics : List H256
  data : List Nat
deriving DecidableEq

/-- The pallet's `Event` enum (`decl_event!`). -/
inductive EvmEvent where
  | log (entry : LogEntry)
  | created (address : H160)
  | createdFailed (address : H160)
  | executed (address : H160)
  | executedFailed (address : H160)
  | balanceDeposit (sender : AccountId32) (address : H160) (value : Nat)
  | balanceWithdraw (sender : AccountId32) (address : H160) (value : Nat)
deriving DecidableEq

/-- The four engine-outcome events a call/create/create2 dispatch classifies
the Runner result into. -/
def EvmEvent.isEngineOutcome : EvmEvent → Bool
  | .created _ => true
  | .createdFailed _ => true
  | .executed _ => true
  | .executedFailed _ => true
  | _ => false

/-- Dispatch-level errors: `BadOrigin` from a failed origin check, the
currency transfer failures, and an opaque code for anything the external
Runner reports as a `DispatchError`. -/
inductive DispatchError where
  | badOrigin
  | insufficientBalance
  | keepAliveBlocked
  | moduleError (code : Nat)
deriving DecidableEq

/-- `frame_support::traits::ExistenceRequirement`. -/
inductive ExistenceRequirement where
  | keepAlive
  | allowDeath
deriving DecidableEq

/-- `frame_support::weights::Pays`: whether the dispatch pays fees. -/
inductive Pays where
  | yes
  | no
deriving DecidableEq

/-- `sp_evm::CallInfo`: the Runner's result for `call`.  `value` is the
output byte sequence. -/
structure CallInfo where
  exit_reason : ExitReason
  value : List Nat
  used_gas : Nat
  logs : List LogEntry
deriving DecidableEq

/-- `sp_evm::CreateInfo`: the Runner's result for `create`/`create2`.
`value` is the created-contract address the engine reports. -/
structure CreateInfo where
  exit_reason : ExitReason
  value : H160
  used_gas : Nat
  logs : List LogEntry
deriving DecidableEq

/-- All state the pallet reads or writes: its two storage maps
(`AccountCodes` as an association list so that absence is distinct from
empty code, `AccountStorages` as an association list on (address, key)),
the native ledger facts it consumes (nonce and free balance per identity),
and the event log it appends to. -/
structure ModuleState where
  accountCodes : List (H160 × List Nat)
  accountStorages : List ((H160 × H256) × H256)
  nonces : AccountId32 → Nat
  balances : AccountId32 → Nat
  events : List EvmEvent

/-- Modelled from the spec: the external `Runner` capability (the repo's
`runner` module is not under `src/`).  Each operation executes against the
bridge-backed state and returns the execution info together with the state
as the engine committed it, or a dispatch-level error. -/
structure RunnerT where
  call : ModuleState → H160 → H160 → List Nat → Nat → Nat →
    Except DispatchError (CallInfo × ModuleState)
  create : ModuleState → H160 → List Nat → Nat → Nat →
    Except DispatchError (CreateInfo × ModuleState)
  create2 : ModuleState → H160 → List Nat → H256 → Nat → Nat →
    Except DispatchError (CreateInfo × ModuleState)

/-- The pallet `Trait` configuration: the `CallOrigin` and `WithdrawOrigin`
guards (as their fallible `try_address_origin` functions; `WithdrawOrigin`
has `Success = AccountId`), the address mapping, and the native ledger's
existential deposit used by the modelled `Currency`. -/
structure EvmConfig (CS : Type) where
  callTry : H160 → RawOrigin → Except RawOrigin CS
  withdrawTry : H160 → RawOrigin → Except RawOrigin AccountId32
  addressMapping : H160 → AccountId32
  existentialDeposit : Nat

/-- `EnsureAddressOrigin::ensure_address_origin`: run the guard's
`try_address_origin` and collapse any failure to `BadOrigin`. -/
def ensureAddressOrigin {S : Type}
    (tryFn : H160 → RawOrigin → Except RawOrigin S)
    (address : H160) (origin : RawOrigin) : Except DispatchError S :=
  match tryFn address origin with
  | .ok v => .ok v
  | .error _ => .error .badOrigin

/-- `EnsureAddressRoot::try_address_origin`: succeed (with unit) iff the
origin is root; otherwise return the original origin. -/
def EnsureAddressRoot.try_address_origin (_address : H160) (origin : RawOrigin) :
    Except RawOrigin Unit :=
  match origin with
  | .root => .ok ()
  | r => .error r

/-- `EnsureAddressNever::try_address_origin`: always fail, returning the
original origin. -/
def EnsureAddressNever.try_address_origin (_address : H160) (origin : RawOrigin) :
    Except RawOrigin AccountId32 :=
  .error origin

/-- `EnsureAddressTruncated::try_address_origin`: succeed with the signer
iff the origin is signed and the first 20 bytes of the signer's 32-byte
identity equal bytes 0..20 of the address; otherwise return the original
origin. -/
def EnsureAddressTruncated.try_address_origin (address : H160) (origin : RawOrigin) :
    Except RawOrigin AccountId32 :=
  match origin with
  | .signed who =>
      if who.take 20 = address.take 20 then .ok who else .error (.signed who)
  | r => .error r

/-- `copy_from_slice` of `src` into `l` at offset `start` (lengths fitting). -/
def setSlice (l : List Nat) (start : Nat) (src : List Nat) : List Nat :=
  l.take start ++ src ++ l.drop (start + src.length)

/-- The 4 ASCII bytes of the domain-separation tag: e, v, m, colon. -/
def evmTag : List Nat := [101, 118, 109, 58]

/-- `IdentityAddressMapping::into_account_id`: the address verbatim. -/
def IdentityAddressMapping.into_account_id (address : H160) : H160 :=
  address

/-- `HashedAddressMapping::into_account_id`: fill a zeroed 24-byte buffer
with the tag at 0..4 and the address at 4..24, hash it with the configured
hasher, and reinterpret the 32-byte digest as the identity. -/
def HashedAddressMapping.into_account_id (hashFn : List Nat → List Nat)
    (address : H160) : AccountId32 :=
  let data0 : List Nat := List.replicate 24 0
  let data1 := setSlice data0 0 evmTag
  let data2 := setSlice data1 4 address
  hashFn data2

/-- Pointwise balance update performed by a successful transfer. -/
def transferUpdate (bal : AccountId32 → Nat) (src dst : AccountId32)
    (amount : Nat) : AccountId32 → Nat :=
  let bal1 : AccountId32 → Nat := fun i => if i = src then bal src - amount else bal i
  fun i => if i = dst then bal1 dst + amount else bal1 i

/-- Modelled from the spec: the external `Currency::transfer` capability
(`frame_support`; not repository code).  Fails with a funds error when the
source's free balance is insufficient; under `KeepAlive` it also refuses a
transfer that would leave the source below the existential deposit, while
`AllowDeath` lets the source account die. -/
def Currency.transfer (ed : Nat) (bal : AccountId32 → Nat)
    (src dst : AccountId32) (amount : Nat) (req : ExistenceRequirement) :
    Except DispatchError (AccountId32 → Nat) :=
  if bal src < amount then .error .insufficientBalance
  else if req = ExistenceRequirement.keepAlive ∧ bal src - amount < ed then
    .error .keepAliveBlocked
  else .ok (transferUpdate bal src dst amount)

/-- `Module::deposit_event`: append one event to the log. -/
def depositEvent (s : ModuleState) (e : EvmEvent) : ModuleState :=
  { s with events := s.events ++ [e] }

/-- Largest value of a 128-bit unsigned integer. -/
def u128Max : Nat := 2 ^ 128 - 1

/-- `UniqueSaturatedInto::<u128>::unique_saturated_into` on an unbounded
native quantity: saturate at `u128Max`. -/
def uniqueSaturatedIntoU128 (n : Nat) : Nat :=
  if n ≤ u128Max then n else u128Max

/-- `Module::account_basic`: derive the EVM account view from the native
ledger's nonce and free balance for the mapped identity, each saturated
into `u128` and widened into `U256`. -/
def account_basic {CS : Type} (cfg : EvmConfig CS) (s : ModuleState)
    (address : H160) : Account :=
  let account_id := cfg.addressMapping address
  let nonce := s.nonces account_id
  let balance := s.balances account_id
  { nonce := uniqueSaturatedIntoU128 nonce
    balance := uniqueSaturatedIntoU128 balance }

/-- `AccountCodes::decode_len`: the length of the stored code without
materializing it; `Option.none` when no entry is present. -/
def AccountCodes.decode_len (codes : List (H160 × List Nat)) (address : H160) :
    Option Nat :=
  (codes.lookup address).map List.length

/-- `Module::is_account_empty`: zero derived nonce, zero derived balance,
and zero stored-code length (absence counting as length 0). -/
def is_account_empty {CS : Type} (cfg : EvmConfig CS) (s : ModuleState)
    (address : H160) : Bool :=
  let account := account_basic cfg s address
  let code_len := (AccountCodes.decode_len s.accountCodes address).getD 0
  account.nonce == 0 && account.balance == 0 && code_len == 0

/-- `Module::remove_account`: clear the code entry and every storage slot
for the address. -/
def remove_account (s : ModuleState) (address : H160) : ModuleState :=
  { s with
    accountCodes := s.accountCodes.filter (fun p => !(p.1 == address))
    accountStorages := s.accountStorages.filter (fun p => !(p.1.1 == address)) }

/-- `Module::remove_account_if_empty`. -/
def remove_account_if_empty {CS : Type} (cfg : EvmConfig CS) (s : ModuleState)
    (address : H160) : ModuleState :=
  if is_account_empty cfg s address then remove_account s address else s

/-- The `withdraw` dispatchable: authorize via `WithdrawOrigin`, then
transfer `value` from the mapped identity of `address` to the destination
the guard returned, with `AllowDeath`.  On any error the enclosing
transition aborts, so the original state is returned. -/
def withdraw {CS : Type} (cfg : EvmConfig CS) (s : ModuleState)
    (origin : RawOrigin) (address : H160) (value : Nat) :
    ModuleState × Except DispatchError Unit :=
  match ensureAddressOrigin cfg.withdrawTry address origin with
  | .error e => (s, .error e)
  | .ok destination =>
    let address_account_id := cfg.addressMapping address
    match Currency.transfer cfg.existentialDeposit s.balances
        address_account_id destination value ExistenceRequirement.allowDeath with
    | .error e => (s, .error e)
    | .ok newBalances => ({ s with balances := newBalances }, .ok ())

/-- The `call` dispatchable: authorize the source via `CallOrigin`, invoke
the Runner, and classify its exit reason into `Executed(target)` or
`ExecutedFailed(target)`.  On any error the transition aborts with the
original state. -/
def call {CS : Type} (cfg : EvmConfig CS) (runner : RunnerT) (s : ModuleState)
    (origin : RawOrigin) (source target : H160) (input : List Nat)
    (value : Nat) (gas_limit : Nat) : ModuleState × Except DispatchError Pays :=
  match ensureAddressOrigin cfg.callTry source origin with
  | .error e => (s, .error e)
  | .ok _ =>
    match runner.call s source target input value gas_limit with
    | .error e => (s, .error e)
    | .ok (info, s1) =>
      match info.exit_reason with
      | .succeed _ => (depositEvent s1 (.executed target), .ok .no)
      | _ => (depositEvent s1 (.executedFailed target), .ok .no)

/-- The `create` dispatchable: authorize the source, invoke the Runner,
and classify its exit reason into `Created` or `CreatedFailed`, either way
carrying the created-contract address the Runner reports. -/
def create {CS : Type} (cfg : EvmConfig CS) (runner : RunnerT) (s : ModuleState)
    (origin : RawOrigin) (source : H160) (init : List Nat)
    (value : Nat) (gas_limit : Nat) : ModuleState × Except DispatchError Pays :=
  match ensureAddressOrigin cfg.callTry source origin with
  | .error e => (s, .error e)
  | .ok _ =>
    match runner.create s source init value gas_limit with
    | .error e => (s, .error e)
    | .ok (info, s1) =>
      match info.exit_reason with
      | .succeed _ => (depositEvent s1 (.created info.value), .ok .no)
      | _ => (depositEvent s1 (.createdFailed info.value), .ok .no)

/-- The `create2` dispatchable: as `create`, with a salt. -/
def create2 {CS : Type} (cfg : EvmConfig CS) (runner : RunnerT) (s : ModuleState)
    (origin : RawOrigin) (source : H160) (init : List Nat) (salt : H256)
    (value : Nat) (gas_limit : Nat) : ModuleState × Except DispatchError Pays :=
  match ensureAddressOrigin cfg.callTry source origin with
  | .error e => (s, .error e)
  | .ok _ =>
    match runner.create2 s source init salt value gas_limit with
    | .error e => (s, .error e)
    | .ok (info, s1) =>
      match info.exit_reason with
      | .succeed _ => (depositEvent s1 (.created info.value), .ok .no)
      | _ => (depositEvent s1 (.createdFailed info.value), .ok .no)

/-! Concrete fixtures used to instantiate the theorems below. -/

/-- A state with no code, no storage, zero ledger facts and an empty log. -/
def zeroState : ModuleState :=
  { accountCodes := []
    accountStorages := []
    nonces := fun _ => 0
    balances := fun _ => 0
    events := [] }

/-- A sample 32-byte signer identity. -/
def sampleWho : AccountId32 := List.replicate 32 1

/-- A configuration whose call guard accepts every origin and whose
withdraw guard accepts exactly signed origins, returning the signer. -/
def allowCfg : EvmConfig Unit :=
  { callTry := fun _ _ => .ok ()
    withdrawTry := fun _ o =>
      match o with
      | .signed w => .ok w
      | r => .error r
    addressMapping := fun a => a ++ List.replicate 12 0
    existentialDeposit := 1 }

/-- A configuration whose guards reject every origin. -/
def denyCfg : EvmConfig Unit :=
  { callTry := fun _ o => .error o
    withdrawTry := fun _ o => .error o
    addressMapping := fun a => a ++ List.replicate 12 0
    existentialDeposit := 1 }

/-- A successful call result. -/
def okCallInfo : CallInfo :=
  { exit_reason := .succeed .stopped, value := [], used_gas := 21000, logs := [] }

/-- A reverted create result carrying a reported contract address. -/
def failCreateInfo : CreateInfo :=
  { exit_reason := .revert .reverted
    value := List.replicate 20 7
    used_gas := 21000
    logs := [] }

/-- A Runner whose call succeeds and whose create/create2 revert,
leaving the state as given. -/
def sampleRunner : RunnerT :=
  { call := fun s _ _ _ _ _ => .ok (okCallInfo, s)
    create := fun s _ _ _ _ => .ok (failCreateInfo, s)
    create2 := fun s _ _ _ _ _ => .ok (failCreateInfo, s) }

/-! Helper lemmas shared by the claim theorems. -/

theorem ensureOk {S : Type} {tryFn : H160 → RawOrigin → Except RawOrigin S}
    {address : H160} {origin : RawOrigin} {v : S}
    (h : tryFn address origin = .ok v) :
    ensureAddressOrigin tryFn address origin = .ok v := by
  unfold ensureAddressOrigin
  rw [h]

theorem ensureErr {S : Type} {tryFn : H160 → RawOrigin → Except RawOrigin S}
    {address : H160} {origin : RawOrigin} {o' : RawOrigin}
    (h : tryFn address origin = .error o') :
    ensureAddressOrigin tryFn address origin = .error .badOrigin := by
  unfold ensureAddressOrigin
  rw [h]

theorem isEmptyIff {CS : Type} (cfg : EvmConfig CS) (s : ModuleState)
    (address : H160) :
    is_account_empty cfg s address = true ↔
      (account_basic cfg s address).nonce = 0 ∧
      (account_basic cfg s address).balance = 0 ∧
      ((s.accountCodes.lookup address).getD []).length = 0 := by
  unfold is_account_empty AccountCodes.decode_len
  cases h : s.accountCodes.lookup address <;>
    simp [h, Bool.and_eq_true, beq_iff_eq, and_assoc]

/-- Claim C5: `is_account_empty(address)` is true iff the derived account
view has zero nonce, zero balance, and the stored code for the address has
length zero. -/
theorem is_account_empty_iff_zero {CS : Type} (cfg : EvmConfig CS)
    (s : ModuleState) (address : H160) :
    is_account_empty cfg s address = true ↔
      (account_basic cfg s address).nonce = 0 ∧
      (account_basic cfg s address).balance = 0 ∧
      ((s.accountCodes.lookup address).getD []).length = 0 :=
  isEmptyIff cfg s address

/-- Claim C9: `account_basic` returns the native ledger's nonce and free
balance for the mapped identity, saturated at the `u128` maximum and hence
representable as unsigned 256-bit integers. -/
theorem account_basic_saturates {CS : Type} (cfg : EvmConfig CS)
    (s : ModuleState) (address : H160) :
    (account_basic cfg s address).nonce =
      min (s.nonces (cfg.addressMapping address)) (2 ^ 128 - 1) ∧
    (account_basic cfg s address).balance =
      min (s.balances (cfg.addressMapping address)) (2 ^ 128 - 1) ∧
    (account_basic cfg s address).nonce < 2 ^ 256 ∧
    (account_basic cfg s address).balance < 2 ^ 256 := by
  have hsat : ∀ n : Nat, uniqueSaturatedIntoU128 n = min n (2 ^ 128 - 1) := by
    intro n
    unfold uniqueSaturatedIntoU128 u128Max
    rw [Nat.min_def]
  have hlt : ∀ n : Nat, min n (2 ^ 128 - 1) < 2 ^ 256 := by
    intro n
    calc min n (2 ^ 128 - 1) ≤ 2 ^ 128 - 1 := Nat.min_le_right _ _
    _ < 2 ^ 256 := by norm_num
  unfold account_basic
  exact ⟨hsat _, hsat _, by simp only [hsat]; exact hlt _, by simp only [hsat]; exact hlt _⟩

/-- Claim C10: when the account at `address` is not empty (nonzero derived
nonce, nonzero derived balance, or nonzero stored code length),
`remove_account_if_empty` leaves the account-code map and the
account-storage map entirely unchanged. -/
theorem remove_account_if_empty_frame {CS : Type} (cfg : EvmConfig CS)
    (s : ModuleState) (address : H160)
    (h : (account_basic cfg s address).nonce ≠ 0 ∨
         (account_basic cfg s address).balance ≠ 0 ∨
         ((s.accountCodes.lookup address).getD []).length ≠ 0) :
    (remove_account_if_empty cfg s address).accountCodes = s.accountCodes ∧
    (remove_account_if_empty cfg s address).accountStorages = s.accountStorages := by
  have hne : ¬ is_account_empty cfg s address = true := by
    rw [isEmptyIff]
    rcases h with h | h | h
    · exact fun hc => h hc.1
    · exact fun hc => h hc.2.1
    · exact fun hc => h hc.2.2
  unfold remove_account_if_empty
  rw [if_neg hne]
  exact ⟨rfl, rfl⟩

/-- Witness for C10 at a state whose ledger holds a balance of 5. -/
theorem remove_account_if_empty_frame_witness :
    (remove_account_if_empty allowCfg
        { zeroState with balances := fun _ => 5 } []).accountCodes =
      ({ zeroState with balances := fun _ => 5 } : ModuleState).accountCodes ∧
    (remove_account_if_empty allowCfg
        { zeroState with balances := fun _ => 5 } []).accountStorages =
      ({ zeroState with balances := fun _ => 5 } : ModuleState).accountStorages :=
  remove_account_if_empty_frame allowCfg { zeroState with balances := fun _ => 5 } []
    (Or.inr (Or.inl (by decide)))

/-- Claim C7: the truncated-hash origin guard succeeds, returning the
signer's identity, exactly when the origin is a signed single-signer origin
whose identity's first 20 bytes equal the 20 bytes of the target address;
in every other case it fails and returns the original origin. -/
theorem truncated_guard_spec (address : H160) (origin : RawOrigin)
    (ha : address.length = 20) :
    (∀ who : AccountId32,
        EnsureAddressTruncated.try_address_origin address origin = .ok who ↔
          origin = RawOrigin.signed who ∧ who.take 20 = address) ∧
    ((∀ who : AccountId32, origin = RawOrigin.signed who → who.take 20 ≠ address) →
        EnsureAddressTruncated.try_address_origin address origin = .error origin) := by
  have htake : address.take 20 = address := by
    rw [← ha]
    exact address.take_length
  unfold EnsureAddressTruncated.try_address_origin
  cases origin with
  | root => simp
  | none' => simp
  | signed w =>
      dsimp only
      rw [htake]
      constructor
      · intro who
        by_cases hw : w.take 20 = address
        · rw [if_pos hw]
          constructor
          · intro h
            cases h
            exact ⟨rfl, hw⟩
          · rintro ⟨h1, _⟩
            cases h1
            rfl
        · rw [if_neg hw]
          constructor
          · intro h
            cases h
          · rintro ⟨h1, h2⟩
            cases h1
            exact absurd h2 hw
      · intro hrej
        rw [if_neg (hrej w rfl)]

/-- Witness for C7: a signed origin whose identity's 20-byte prefix matches
the address succeeds, returning the signer. -/
theorem truncated_guard_spec_witness :
    EnsureAddressTruncated.try_address_origin (List.replicate 20 1)
        (RawOrigin.signed sampleWho) = .ok sampleWho :=
  ((truncated_guard_spec (List.replicate 20 1) (RawOrigin.signed sampleWho)
      (by decide)).1 sampleWho).mpr ⟨rfl, by decide⟩

/-- Claim C8: the hashed address mapping hashes exactly the 24-byte buffer
made of the 4 tag bytes followed by the 20 address bytes, returning the
full digest as the identity; equal addresses map to equal identities. -/
theorem hashed_mapping_spec (hashFn : List Nat → List Nat) (address : H160)
    (ha : address.length = 20) :
    HashedAddressMapping.into_account_id hashFn address =
      hashFn (evmTag ++ address) ∧
    (∀ b : H160, b = address →
      HashedAddressMapping.into_account_id hashFn b =
        HashedAddressMapping.into_account_id hashFn address) := by
  constructor
  · unfold HashedAddressMapping.into_account_id setSlice
    simp [evmTag, ha, List.drop_eq_nil_of_le]
  · intro b hb
    rw [hb]

/-- Witness for C8 at the 20-byte address 7,7,...,7 with the hash function
that reverses its input. -/
theorem hashed_mapping_spec_witness :
    HashedAddressMapping.into_account_id List.reverse (List.replicate 20 7) =
      List.reverse (evmTag ++ List.replicate 20 7) :=
  (hashed_mapping_spec List.reverse (List.replicate 20 7) (by decide)).1

/-- Claim C1: when the call guard passes and the Runner returns a result,
`call` emits exactly `Executed(target)` for a `Succeed` exit reason and
exactly `ExecutedFailed(target)` for every other exit reason. -/
theorem call_classifies_exit {CS : Type} (cfg : EvmConfig CS) (runner : RunnerT)
    (s : ModuleState) (origin : RawOrigin) (source target : H160)
    (input : List Nat) (value gas_limit : Nat)
    (cs : CS) (info : CallInfo) (s1 : ModuleState)
    (hg : cfg.callTry source origin = .ok cs)
    (hr : runner.call s source target input value gas_limit = .ok (info, s1)) :
    call cfg runner s origin source target input value gas_limit =
      (depositEvent s1
        (if info.exit_reason.isSucceed then EvmEvent.executed target
         else EvmEvent.executedFailed target),
       .ok Pays.no) := by
  unfold call
  rw [ensureOk hg]
  dsimp only
  rw [hr]
  dsimp only
  rcases info with ⟨er, v, g, lg⟩
  cases er <;> rfl

/-- Witness for C1 with a Runner whose call succeeds. -/
theorem call_classifies_exit_witness :
    call allowCfg sampleRunner zeroState RawOrigin.root [] [] [] 0 0 =
      (depositEvent zeroState
        (if okCallInfo.exit_reason.isSucceed then EvmEvent.executed []
         else EvmEvent.executedFailed []),
       .ok Pays.no) :=
  call_classifies_exit allowCfg sampleRunner zeroState RawOrigin.root [] [] [] 0 0
    () okCallInfo zeroState rfl rfl

/-- Claim C3: when the call guard rejects the origin, `call` returns the
authorization error without invoking the Runner (the result is the same
for every Runner), and code map, storage map, balances and event log are
exactly as before. -/
theorem call_unauthorized_no_effect {CS : Type} (cfg : EvmConfig CS)
    (s : ModuleState) (origin : RawOrigin) (source target : H160)
    (input : List Nat) (value gas_limit : Nat) (o' : RawOrigin)
    (hg : cfg.callTry source origin = .error o') :
    ∀ runner : RunnerT,
      (call cfg runner s origin source target input value gas_limit).2 =
        .error .badOrigin ∧
      (call cfg runner s origin source target input value gas_limit).1.accountCodes =
        s.accountCodes ∧
      (call cfg runner s origin source target input value gas_limit).1.accountStorages =
        s.accountStorages ∧
      (call cfg runner s origin source target input value gas_limit).1.balances =
        s.balances ∧
      (call cfg runner s origin source target input value gas_limit).1.events =
        s.events := by
  intro runner
  unfold call
  rw [ensureErr hg]
  exact ⟨rfl, rfl, rfl, rfl, rfl⟩

/-- Witness for C3 at the all-rejecting configuration. -/
theorem call_unauthorized_no_effect_witness :
    (call denyCfg sampleRunner zeroState RawOrigin.root [] [] [] 0 0).2 =
      .error .badOrigin ∧
    (call denyCfg sampleRunner zeroState RawOrigin.root [] [] [] 0 0).1.accountCodes =
      zeroState.accountCodes ∧
    (call denyCfg sampleRunner zeroState RawOrigin.root [] [] [] 0 0).1.accountStorages =
      zeroState.accountStorages ∧
    (call denyCfg sampleRunner zeroState RawOrigin.root [] [] [] 0 0).1.balances =
      zeroState.balances ∧
    (call denyCfg sampleRunner zeroState RawOrigin.root [] [] [] 0 0).1.events =
      zeroState.events :=
  call_unauthorized_no_effect denyCfg zeroState RawOrigin.root [] [] [] 0 0
    RawOrigin.root rfl sampleRunner

/-- Claim C2: whenever the guard passes and the Runner returns, each of
`call`, `create`, `create2` appends exactly one event, drawn from
Created / CreatedFailed / Executed / ExecutedFailed, to the state the
engine committed; and when the origin check fails each dispatch returns
`BadOrigin` with the state untouched. -/
theorem dispatch_engine_event_or_abort {CS : Type} (cfg : EvmConfig CS)
    (runner : RunnerT) (s : ModuleState) (origin : RawOrigin)
    (source target : H160) (input init : List Nat) (salt : H256)
    (value gas_limit : Nat) :
    (∀ (cs : CS) (info : CallInfo) (s1 : ModuleState),
        cfg.callTry source origin = .ok cs →
        runner.call s source target input value gas_limit = .ok (info, s1) →
        ∃ e : EvmEvent, e.isEngineOutcome = true ∧
          (call cfg runner s origin source target input value gas_limit).1.events =
            s1.events ++ [e]) ∧
    (∀ (cs : CS) (info : CreateInfo) (s1 : ModuleState),
        cfg.callTry source origin = .ok cs →
        runner.create s source init value gas_limit = .ok (info, s1) →
        ∃ e : EvmEvent, e.isEngineOutcome = true ∧
          (create cfg runner s origin source init value gas_limit).1.events =
            s1.events ++ [e]) ∧
    (∀ (cs : CS) (info : CreateInfo) (s1 : ModuleState),
        cfg.callTry source origin = .ok cs →
        runner.create2 s source init salt value gas_limit = .ok (info, s1) →
        ∃ e : EvmEvent, e.isEngineOutcome = true ∧
          (create2 cfg runner s origin source init salt value gas_limit).1.events =
            s1.events ++ [e]) ∧
    (∀ o' : RawOrigin, cfg.callTry source origin = .error o' →
        call cfg runner s origin source target input value gas_limit =
          (s, .error .badOrigin) ∧
        create cfg runner s origin source init value gas_limit =
          (s, .error .badOrigin) ∧
        create2 cfg runner s origin source init salt value gas_limit =
          (s, .error .badOrigin)) := by
  refine ⟨?_, ?_, ?_, ?_⟩
  · intro cs info s1 hg hr
    unfold call
    rw [ensureOk hg]
    dsimp only
    rw [hr]
    dsimp only
    rcases info with ⟨er, v, g, lg⟩
    cases er with
    | succeed r =>
        exact ⟨EvmEvent.executed target, rfl, rfl⟩
    | revert r =>
        exact ⟨EvmEvent.executedFailed target, rfl, rfl⟩
    | error r =>
        exact ⟨EvmEvent.executedFailed target, rfl, rfl⟩
    | fatal r =>
        exact ⟨EvmEvent.executedFailed target, rfl, rfl⟩
  · intro cs info s1 hg hr
    unfold create
    rw [ensureOk hg]
    dsimp only
    rw [hr]
    dsimp only
    rcases info with ⟨er, v, g, lg⟩
    cases er with
    | succeed r =>
        exact ⟨EvmEvent.created v, rfl, rfl⟩
    | revert r =>
        exact ⟨EvmEvent.createdFailed v, rfl, rfl⟩
    | error r =>
        exact ⟨EvmEvent.createdFailed v, rfl, rfl⟩
    | fatal r =>
        exact ⟨EvmEvent.createdFailed v, rfl, rfl⟩
  · intro cs info s1 hg hr
    unfold create2
    rw [ensureOk hg]
    dsimp only
    rw [hr]
    dsimp only
    rcases info with ⟨er, v, g, lg⟩
    cases er with
    | succeed r =>
        exact ⟨EvmEvent.created v, rfl, rfl⟩
    | revert r =>
        exact ⟨EvmEvent.createdFailed v, rfl, rfl⟩
    | error r =>
        exact ⟨EvmEvent.createdFailed v, rfl, rfl⟩
    | fatal r =>
        exact ⟨EvmEvent.createdFailed v, rfl, rfl⟩
  · intro o' hg
    unfold call create create2
    rw [ensureErr hg]
    exact ⟨rfl, rfl, rfl⟩

/-- Witness for C2: at an all-rejecting configuration every dispatch
aborts with `BadOrigin` and the untouched state. -/
theorem dispatch_engine_event_or_abort_witness :
    call denyCfg sampleRunner zeroState RawOrigin.root [] [] [] 0 0 =
      (zeroState, .error .badOrigin) ∧
    create denyCfg sampleRunner zeroState RawOrigin.root [] [] 0 0 =
      (zeroState, .error .badOrigin) ∧
    create2 denyCfg sampleRunner zeroState RawOrigin.root [] [] [] 0 0 =
      (zeroState, .error .badOrigin) :=
  (dispatch_engine_event_or_abort denyCfg sampleRunner zeroState RawOrigin.root
      [] [] [] [] [] 0 0).2.2.2 RawOrigin.root rfl

/-- Claim C4: a `create`/`create2` whose Runner result has a non-Succeed
exit reason still emits `CreatedFailed` carrying the address the Runner
reported; and (the Runner being a function of its inputs) any Runner
result at identical inputs reports that same address. -/
theorem create_failed_emits_reported_address {CS : Type} (cfg : EvmConfig CS)
    (runner : RunnerT) (s : ModuleState) (origin : RawOrigin) (source : H160)
    (init : List Nat) (salt : H256) (value gas_limit : Nat) :
    (∀ (cs : CS) (info : CreateInfo) (s1 : ModuleState),
        cfg.callTry source origin = .ok cs →
        runner.create s source init value gas_limit = .ok (info, s1) →
        info.exit_reason.isSucceed = false →
        create cfg runner s origin source init value gas_limit =
          (depositEvent s1 (EvmEvent.createdFailed info.value), .ok Pays.no) ∧
        (∀ (info2 : CreateInfo) (s2 : ModuleState),
          runner.create s source init value gas_limit = .ok (info2, s2) →
          info2.value = info.value)) ∧
    (∀ (cs : CS) (info : CreateInfo) (s1 : ModuleState),
        cfg.callTry source origin = .ok cs →
        runner.create2 s source init salt value gas_limit = .ok (info, s1) →
        info.exit_reason.isSucceed = false →
        create2 cfg runner s origin source init salt value gas_limit =
          (depositEvent s1 (EvmEvent.createdFailed info.value), .ok Pays.no) ∧
        (∀ (info2 : CreateInfo) (s2 : ModuleState),
          runner.create2 s source init salt value gas_limit = .ok (info2, s2) →
          info2.value = info.value)) := by
  constructor
  · intro cs info s1 hg hr hf
    constructor
    · unfold create
      rw [ensureOk hg]
      dsimp only
      rw [hr]
      dsimp only
      rcases info with ⟨er, v, g, lg⟩
      cases er with
      | succeed r => exact absurd hf (by simp [ExitReason.isSucceed])
      | revert r => rfl
      | error r => rfl
      | fatal r => rfl
    · intro info2 s2 h2
      rw [hr] at h2
      have h3 : (info, s1) = (info2, s2) := by
        exact Except.ok.inj h2
      rw [(Prod.mk.injEq _ _ _ _).mp h3 |>.1]
  · intro cs info s1 hg hr hf
    constructor
    · unfold create2
      rw [ensureOk hg]
      dsimp only
      rw [hr]
      dsimp only
      rcases info with ⟨er, v, g, lg⟩
      cases er with
      | succeed r => exact absurd hf (by simp [ExitReason.isSucceed])
      | revert r => rfl
      | error r => rfl
      | fatal r => rfl
    · intro info2 s2 h2
      rw [hr] at h2
      have h3 : (info, s1) = (info2, s2) := by
        exact Except.ok.inj h2
      rw [(Prod.mk.injEq _ _ _ _).mp h3 |>.1]

/-- Witness for C4: the sample Runner's create reverts, and the emitted
event carries the address it reported. -/
theorem create_failed_emits_reported_address_witness :
    create allowCfg sampleRunner zeroState RawOrigin.root [] [] 0 0 =
      (depositEvent zeroState (EvmEvent.createdFailed failCreateInfo.value),
       .ok Pays.no) :=
  ((create_failed_emits_reported_address allowCfg sampleRunner zeroState
      RawOrigin.root [] [] [] 0 0).1 () failCreateInfo zeroState rfl rfl rfl).1

/-- Claim C6: `withdraw` first authorizes the principal via the withdraw
guard (failing with the authorization error otherwise, state untouched),
then transfers `value` from the mapped identity of `address` to the
guard's destination with `AllowDeath`: with insufficient balance it fails
with the funds error, and on success it only updates balances, appending
no event. -/
theorem withdraw_authorize_then_transfer {CS : Type} (cfg : EvmConfig CS)
    (s : ModuleState) (origin : RawOrigin) (address : H160) (value : Nat) :
    (∀ o' : RawOrigin, cfg.withdrawTry address origin = .error o' →
        withdraw cfg s origin address value = (s, .error .badOrigin)) ∧
    (∀ dest : AccountId32, cfg.withdrawTry address origin = .ok dest →
        (s.balances (cfg.addressMapping address) < value →
          withdraw cfg s origin address value = (s, .error .insufficientBalance)) ∧
        (value ≤ s.balances (cfg.addressMapping address) →
          withdraw cfg s origin address value =
            ({ s with balances :=
                transferUpdate s.balances (cfg.addressMapping address) dest value },
             .ok ()) ∧
          (withdraw cfg s origin address value).1.events = s.events)) := by
  constructor
  · intro o' hg
    unfold withdraw
    rw [ensureErr hg]
  · intro dest hg
    have he := ensureOk hg
    constructor
    · intro hlt
      unfold withdraw
      rw [he]
      dsimp only
      unfold Currency.transfer
      rw [if_pos hlt]
    · intro hge
      have hres : withdraw cfg s origin address value =
          ({ s with balances :=
              transferUpdate s.balances (cfg.addressMapping address) dest value },
           .ok ()) := by
        unfold withdraw
        rw [he]
        dsimp only
        unfold Currency.transfer
        rw [if_neg (Nat.not_lt.mpr hge), if_neg ?_]
        rintro ⟨h1, _⟩
        cases h1
      exact ⟨hres, by rw [hres]⟩

/-- Witness for C6: a signed principal withdraws 0 from the zero state;
balances are rewritten by the (trivial) transfer and no event is
appended. -/
theorem withdraw_authorize_then_transfer_witness :
    withdraw allowCfg zeroState (RawOrigin.signed sampleWho) [] 0 =
      ({ zeroState with balances := transferUpdate zeroState.balances (allowCfg.addressMapping []) sampleWho 0 },
       .ok ()) :=
  (((withdraw_authorize_then_transfer allowCfg zeroState
      (RawOrigin.signed sampleWho) [] 0).2 sampleWho rfl).2 (Nat.zero_le 0)).1

end EvmPallet
